import Mathlib

/-!
Verification of `tools_webrtc/configure_pipewire.py`, a launcher script that
resolves a PipeWire installation directory, overlays derived paths onto the
process environment, starts the `pipewire` and `wireplumber` helper processes,
runs a caller-supplied foreground command, and terminates the helpers.

The embedding below models:
* POSIX path helpers `os.path.join` (two-argument form, as used by the script)
  and `os.path.dirname` over `String`/`List Char`;
* the process environment as an association list with Python-`dict`-style
  first-occurrence update (`setVar`) and lookup (`getVar`);
* `_get_pipewire_dir`, `_configure_pipewire_paths` (whose read of
  `env_vars['PATH']` can raise `KeyError`, modelled by `Except`, with the
  error carrying the partially mutated environment), and `main`, whose
  observable process-level effects (prints, spawns, the foreground call, and
  terminate/kill requests) are recorded as an event trace.
-/

/-- `os.path.join a b` for POSIX paths, two-component form: if `b` is
absolute the result is `b`; otherwise `b` is appended to `a`, inserting a
separator unless `a` is empty or already ends with one. -/
def pathJoin (a b : String) : String :=
  if b.data.head? = some '/' then b
  else if a.data = [] ∨ a.data.getLast? = some '/' then a ++ b
  else a ++ "/" ++ b

/-- The characters of `p` up to and including its last slash
(`p[:p.rfind(sep) + 1]` in `posixpath.dirname`); empty if `p` has no slash. -/
def uptoLastSlash : List Char → List Char
  | [] => []
  | c :: cs =>
      if '/' ∈ cs then c :: uptoLastSlash cs
      else if c = '/' then ['/'] else []

/-- Remove trailing slashes (`head.rstrip(sep)` in `posixpath.dirname`). -/
def stripTrailingSlashes (l : List Char) : List Char :=
  (l.reverse.dropWhile (fun c => c == '/')).reverse

/-- `os.path.dirname` on the character list of a POSIX path: the part before
the last slash, with trailing slashes stripped unless it is all slashes. -/
def dirnameChars (p : List Char) : List Char :=
  let head := uptoLastSlash p
  if head = [] ∨ head.all (fun c => c == '/') then head
  else stripTrailingSlashes head

/-- `os.path.dirname` on strings. -/
def dirname (s : String) : String := String.mk (dirnameChars s.data)

/-- `_get_pipewire_dir`: from the real path of the launcher script, take the
directory containing it, then its parent, and join the fixed components
`third_party`, `pipewire`, `linux-amd64`. -/
def getPipewireDir (scriptRealPath : String) : String :=
  let scriptDir := dirname scriptRealPath
  let srcDir := dirname scriptDir
  pathJoin (pathJoin (pathJoin srcDir "third_party") "pipewire") "linux-amd64"

/-- The process environment: an association list of variable names to values,
in insertion order, mirroring a Python `dict` (`os.environ`). -/
abbrev Env := List (String × String)

/-- Dictionary lookup: the value at the first occurrence of `key`. -/
def getVar : Env → String → Option String
  | [], _ => none
  | (k, v) :: rest, key => if k = key then some v else getVar rest key

/-- Dictionary assignment `env[key] = val`: overwrite the value at the first
occurrence of `key`, or append a new binding at the end. -/
def setVar : Env → String → String → Env
  | [], key, val => [(key, val)]
  | (k, v) :: rest, key, val =>
      if k = key then (k, val) :: rest else (k, v) :: setVar rest key val

/-- The keys of an environment. -/
def envKeys (e : Env) : List String := e.map Prod.fst

/-- `_configure_pipewire_paths path`: derive the library, binary, config,
module, and plugin directories from the installation root and overlay them
onto the environment. Reading `env_vars['PATH']` happens after the first five
assignments; if `PATH` is absent this raises `KeyError`, modelled as
`Except.error` carrying the partially mutated environment. -/
def configurePipewirePaths (path : String) (env : Env) : Except Env Env :=
  let libraryDir := pathJoin path "lib64"
  let pipewireBinaryDir := pathJoin path "bin"
  let cfgPfx := pathJoin (pathJoin path "share") "pipewire"
  let pipewireModuleDir := pathJoin libraryDir "pipewire-0.3"
  let spaPluginDir := pathJoin libraryDir "spa-0.2"
  let wireplumberConfigDir := pathJoin (pathJoin path "share") "wireplumber"
  let wireplumberDataDir := pathJoin (pathJoin path "share") "wireplumber"
  let wireplumberModuleDir := pathJoin libraryDir "wireplumber-0.5"
  let e1 := setVar env "LD_LIBRARY_PATH" libraryDir
  let e2 := setVar e1 "PIPEWIRE_CONFIG_PREFIX" cfgPfx
  let e3 := setVar e2 "PIPEWIRE_MODULE_DIR" pipewireModuleDir
  let e4 := setVar e3 "SPA_PLUGIN_DIR" spaPluginDir
  let e5 := setVar e4 "PIPEWIRE_RUNTIME_DIR" "/tmp"
  match getVar e5 "PATH" with
  | none => Except.error e5
  | some oldPath =>
      let e6 := setVar e5 "PATH" (oldPath ++ ":" ++ pipewireBinaryDir)
      let e7 := setVar e6 "WIREPLUMBER_CONFIG_DIR" wireplumberConfigDir
      let e8 := setVar e7 "WIREPLUMBER_DATA_DIR" wireplumberDataDir
      let e9 := setVar e8 "WIREPLUMBER_MODULE_DIR" wireplumberModuleDir
      Except.ok e9

/-- An observable process-level effect of one run of the launcher. -/
inductive Event where
  /-- `subprocess.Popen(args, stdout=stdoutRedirect)` in environment `env`
  (`stdoutRedirect = none` leaves stdout connected to the launcher's own). -/
  | spawned (args : List String) (stdoutRedirect : Option String) (env : Env)
  /-- `subprocess.call(args)`: the blocking foreground command, in `env`. -/
  | ranForeground (args : List String) (env : Env)
  /-- `process.terminate()`: a graceful terminate request (SIGTERM). -/
  | terminated (name : String)
  /-- `process.kill()`: a forceful kill (SIGKILL); never used by the script. -/
  | killed (name : String)
  /-- `print(msg)`. -/
  | printed (msg : String)
deriving DecidableEq

/-- The outcome of a completed run of `main`. -/
structure RunResult where
  exitCode : Nat
  events : List Event
  env : Env
deriving DecidableEq

/-- The apostrophe character, for the missing-directory message. -/
def squote : String := String.singleton (Char.ofNat 39)

/-- The one-line message printed when the installation root is missing. -/
def missingDirMsg (d : String) : String :=
  "configure-pipewire: Couldn" ++ squote ++ "t find directory " ++ d

/-- `main` of the script (named `mainRun`, since Lean reserves `main`): resolve the installation root; if it is not a directory, print a
message and return 1; otherwise configure the environment, spawn `pipewire`
then `wireplumber` with stdout unredirected, run the caller-supplied command
(whose exit status is `callResult`), terminate `wireplumber` then `pipewire`,
and return the foreground status. `isdir` abstracts `os.path.isdir`, and an
uncaught `KeyError` from configuration propagates as `Except.error`. -/
def mainRun (scriptRealPath : String) (isdir : String → Bool) (env : Env)
    (argvTail : List String) (callResult : Nat) : Except Env RunResult :=
  let pipewireDir := getPipewireDir scriptRealPath
  if !(isdir pipewireDir) then
    Except.ok
      { exitCode := 1
        events := [Event.printed (missingDirMsg pipewireDir)]
        env := env }
  else
    match configurePipewirePaths pipewireDir env with
    | Except.error e => Except.error e
    | Except.ok env1 =>
        Except.ok
          { exitCode := callResult
            events := [Event.spawned ["pipewire"] none env1,
                       Event.spawned ["wireplumber"] none env1,
                       Event.ranForeground argvTail env1,
                       Event.terminated "wireplumber",
                       Event.terminated "pipewire"]
            env := env1 }

/-- The names passed to `terminate` requests, in order. -/
def terminateRequests (evs : List Event) : List String :=
  evs.filterMap fun e =>
    match e with
    | Event.terminated name => some name
    | _ => none

/-- The names passed to `kill` requests, in order. -/
def killRequests (evs : List Event) : List String :=
  evs.filterMap fun e =>
    match e with
    | Event.killed name => some name
    | _ => none

/-- The `Popen` spawns, in order: argument vector, stdout redirection, and
the environment the child inherits. -/
def spawnRequests (evs : List Event) : List (List String × Option String × Env) :=
  evs.filterMap fun e =>
    match e with
    | Event.spawned args out en => some (args, out, en)
    | _ => none

/-- The foreground `subprocess.call` executions, in order. -/
def foregroundRuns (evs : List Event) : List (List String × Env) :=
  evs.filterMap fun e =>
    match e with
    | Event.ranForeground args en => some (args, en)
    | _ => none

theorem getVar_setVar (e : Env) (k v k2 : String) :
    getVar (setVar e k v) k2 = if k = k2 then some v else getVar e k2 := by
  induction e with
  | nil =>
      by_cases h : k = k2 <;> simp [setVar, getVar, h]
  | cons hd tl ih =>
      obtain ⟨a, b⟩ := hd
      by_cases hak : a = k
      · subst hak
        by_cases h2 : a = k2 <;> simp [setVar, getVar, h2]
      · have hka : ¬ k = a := fun h => hak h.symm
        by_cases h2 : a = k2
        · subst h2
          simp [setVar, getVar, hak, hka]
        · simp [setVar, getVar, hak, h2, ih]

theorem mem_envKeys_setVar (e : Env) (k v k2 : String) :
    k2 ∈ envKeys (setVar e k v) ↔ k2 ∈ envKeys e ∨ k2 = k := by
  induction e with
  | nil => simp [setVar, envKeys]
  | cons hd tl ih =>
      obtain ⟨a, b⟩ := hd
      by_cases hak : a = k
      · subst hak
        simp [setVar, envKeys]
        tauto
      · simp [setVar, envKeys, hak] at ih ⊢
        rw [ih]
        tauto

theorem getVar_PATH_after5 (env : Env) (a b c d f : String) :
    getVar (setVar (setVar (setVar (setVar (setVar env "LD_LIBRARY_PATH" a)
      "PIPEWIRE_CONFIG_PREFIX" b) "PIPEWIRE_MODULE_DIR" c)
      "SPA_PLUGIN_DIR" d) "PIPEWIRE_RUNTIME_DIR" f) "PATH" = getVar env "PATH" := by
  simp [getVar_setVar]

theorem configure_ok_eq (R : String) (env : Env) (p : String)
    (hp : getVar env "PATH" = some p) :
    configurePipewirePaths R env = Except.ok
      (setVar (setVar (setVar (setVar (setVar (setVar (setVar (setVar (setVar env
        "LD_LIBRARY_PATH" (pathJoin R "lib64"))
        "PIPEWIRE_CONFIG_PREFIX" (pathJoin (pathJoin R "share") "pipewire"))
        "PIPEWIRE_MODULE_DIR" (pathJoin (pathJoin R "lib64") "pipewire-0.3"))
        "SPA_PLUGIN_DIR" (pathJoin (pathJoin R "lib64") "spa-0.2"))
        "PIPEWIRE_RUNTIME_DIR" "/tmp")
        "PATH" (p ++ ":" ++ pathJoin R "bin"))
        "WIREPLUMBER_CONFIG_DIR" (pathJoin (pathJoin R "share") "wireplumber"))
        "WIREPLUMBER_DATA_DIR" (pathJoin (pathJoin R "share") "wireplumber"))
        "WIREPLUMBER_MODULE_DIR" (pathJoin (pathJoin R "lib64") "wireplumber-0.5")) := by
  simp only [configurePipewirePaths]
  rw [getVar_PATH_after5, hp]

theorem configure_error_eq (R : String) (env : Env)
    (hp : getVar env "PATH" = none) :
    configurePipewirePaths R env = Except.error
      (setVar (setVar (setVar (setVar (setVar env
        "LD_LIBRARY_PATH" (pathJoin R "lib64"))
        "PIPEWIRE_CONFIG_PREFIX" (pathJoin (pathJoin R "share") "pipewire"))
        "PIPEWIRE_MODULE_DIR" (pathJoin (pathJoin R "lib64") "pipewire-0.3"))
        "SPA_PLUGIN_DIR" (pathJoin (pathJoin R "lib64") "spa-0.2"))
        "PIPEWIRE_RUNTIME_DIR" "/tmp") := by
  simp only [configurePipewirePaths]
  rw [getVar_PATH_after5, hp]

theorem getVar_configure_ok (R : String) (env env2 : Env)
    (h : configurePipewirePaths R env = Except.ok env2) (k : String) :
    getVar env2 k =
      if "WIREPLUMBER_MODULE_DIR" = k then
        some (pathJoin (pathJoin R "lib64") "wireplumber-0.5")
      else if "WIREPLUMBER_DATA_DIR" = k then
        some (pathJoin (pathJoin R "share") "wireplumber")
      else if "WIREPLUMBER_CONFIG_DIR" = k then
        some (pathJoin (pathJoin R "share") "wireplumber")
      else if "PATH" = k then
        (getVar env "PATH").map (fun p => p ++ ":" ++ pathJoin R "bin")
      else if "PIPEWIRE_RUNTIME_DIR" = k then some "/tmp"
      else if "SPA_PLUGIN_DIR" = k then
        some (pathJoin (pathJoin R "lib64") "spa-0.2")
      else if "PIPEWIRE_MODULE_DIR" = k then
        some (pathJoin (pathJoin R "lib64") "pipewire-0.3")
      else if "PIPEWIRE_CONFIG_PREFIX" = k then
        some (pathJoin (pathJoin R "share") "pipewire")
      else if "LD_LIBRARY_PATH" = k then some (pathJoin R "lib64")
      else getVar env k := by
  rcases hp : getVar env "PATH" with _ | p
  · rw [configure_error_eq R env hp] at h
    exact absurd h (by simp)
  · rw [configure_ok_eq R env p hp] at h
    have h2 := h
    injection h2 with h3
    subst h3
    simp [getVar_setVar]

theorem mem_envKeys_configure_ok (R : String) (env env2 : Env)
    (h : configurePipewirePaths R env = Except.ok env2) (k : String) :
    k ∈ envKeys env2 ↔ k ∈ envKeys env ∨
      k ∈ ["LD_LIBRARY_PATH", "PIPEWIRE_CONFIG_PREFIX", "PIPEWIRE_MODULE_DIR",
           "SPA_PLUGIN_DIR", "PIPEWIRE_RUNTIME_DIR", "PATH",
           "WIREPLUMBER_CONFIG_DIR", "WIREPLUMBER_DATA_DIR",
           "WIREPLUMBER_MODULE_DIR"] := by
  rcases hp : getVar env "PATH" with _ | p
  · rw [configure_error_eq R env hp] at h
    exact absurd h (by simp)
  · rw [configure_ok_eq R env p hp] at h
    have h2 := h
    injection h2 with h3
    subst h3
    simp only [mem_envKeys_setVar, List.mem_cons, List.mem_singleton,
      List.not_mem_nil]
    tauto

theorem string_eq_of_data_eq {a b : String} (h : a.data = b.data) : a = b := by
  cases a
  cases b
  exact congrArg String.mk h

theorem pathJoin_eq_append (a b : String) (ha : a.data ≠ [])
    (ha2 : a.data.getLast? ≠ some '/') (hb : b.data.head? ≠ some '/') :
    pathJoin a b = a ++ ("/" ++ b) := by
  unfold pathJoin
  rw [if_neg hb, if_neg (not_or.mpr ⟨ha, ha2⟩), String.append_assoc]

theorem append_data_ne_nil (a b : String) (hb : b.data ≠ []) :
    (a ++ b).data ≠ [] := by
  rw [String.data_append]
  simp [hb]

theorem append_data_getLast? (a b : String) (hb : b.data ≠ []) :
    (a ++ b).data.getLast? = b.data.getLast? := by
  rw [String.data_append]
  exact List.getLast?_append_of_ne_nil _ hb

theorem pathJoin_two (R a b : String) (hR1 : R.data ≠ [])
    (hR2 : R.data.getLast? ≠ some '/')
    (hahd : a.data.head? ≠ some '/') (hane : a.data ≠ [])
    (halast : a.data.getLast? ≠ some '/') (hbhd : b.data.head? ≠ some '/') :
    pathJoin (pathJoin R a) b = R ++ ("/" ++ a ++ ("/" ++ b)) := by
  rw [pathJoin_eq_append R a hR1 hR2 hahd]
  have hsa : ("/" ++ a).data ≠ [] := append_data_ne_nil _ _ hane
  have hne : (R ++ ("/" ++ a)).data ≠ [] := append_data_ne_nil _ _ hsa
  have hlast : (R ++ ("/" ++ a)).data.getLast? = a.data.getLast? := by
    rw [append_data_getLast? _ _ hsa, append_data_getLast? _ _ hane]
  rw [pathJoin_eq_append _ b hne (hlast ▸ halast) hbhd]
  simp [String.append_assoc]

theorem pathJoin_append_concrete (R : String) (a b c : String)
    (hane : a.data ≠ []) (halast : a.data.getLast? ≠ some '/')
    (hbhd : b.data.head? ≠ some '/') (habc : a ++ ("/" ++ b) = c) :
    pathJoin (R ++ a) b = R ++ c := by
  have hne : (R ++ a).data ≠ [] := append_data_ne_nil _ _ hane
  have hlast : (R ++ a).data.getLast? = a.data.getLast? :=
    append_data_getLast? _ _ hane
  rw [pathJoin_eq_append _ _ hne (hlast ▸ halast) hbhd, String.append_assoc,
    habc]

theorem configure_paths_concat (R : String) (hR1 : R.data ≠ [])
    (hR2 : R.data.getLast? ≠ some '/') :
    pathJoin R "lib64" = R ++ "/lib64" ∧
    pathJoin R "bin" = R ++ "/bin" ∧
    pathJoin R "share" = R ++ "/share" ∧
    pathJoin (R ++ "/share") "pipewire" = R ++ "/share/pipewire" ∧
    pathJoin (R ++ "/lib64") "pipewire-0.3" = R ++ "/lib64/pipewire-0.3" ∧
    pathJoin (R ++ "/lib64") "spa-0.2" = R ++ "/lib64/spa-0.2" ∧
    pathJoin (R ++ "/share") "wireplumber" = R ++ "/share/wireplumber" ∧
    pathJoin (R ++ "/lib64") "wireplumber-0.5" = R ++ "/lib64/wireplumber-0.5" := by
  refine ⟨?_, ?_, ?_, ?_, ?_, ?_, ?_, ?_⟩
  · rw [pathJoin_eq_append R "lib64" hR1 hR2 (by decide)]
    exact congrArg (String.append R) (by decide)
  · rw [pathJoin_eq_append R "bin" hR1 hR2 (by decide)]
    exact congrArg (String.append R) (by decide)
  · rw [pathJoin_eq_append R "share" hR1 hR2 (by decide)]
    exact congrArg (String.append R) (by decide)
  · exact pathJoin_append_concrete R "/share" "pipewire" _ (by decide)
      (by decide) (by decide) (by decide)
  · exact pathJoin_append_concrete R "/lib64" "pipewire-0.3" _ (by decide)
      (by decide) (by decide) (by decide)
  · exact pathJoin_append_concrete R "/lib64" "spa-0.2" _ (by decide)
      (by decide) (by decide) (by decide)
  · exact pathJoin_append_concrete R "/share" "wireplumber" _ (by decide)
      (by decide) (by decide) (by decide)
  · exact pathJoin_append_concrete R "/lib64" "wireplumber-0.5" _ (by decide)
      (by decide) (by decide) (by decide)

theorem uptoLastSlash_append (xs ys : List Char) (hy : '/' ∉ ys) :
    uptoLastSlash (xs ++ '/' :: ys) = xs ++ ['/'] := by
  induction xs with
  | nil => simp [uptoLastSlash, hy]
  | cons c cs ih =>
      have hmem : '/' ∈ cs ++ '/' :: ys := by simp
      simp [uptoLastSlash, hmem, ih]

theorem stripTrailingSlashes_append (xs : List Char)
    (h : xs.getLast? ≠ some '/') :
    stripTrailingSlashes (xs ++ ['/']) = xs := by
  have hrev : (xs ++ ['/']).reverse = '/' :: xs.reverse := by simp
  unfold stripTrailingSlashes
  rw [hrev, List.dropWhile_cons]
  simp only [beq_self_eq_true, if_true]
  cases hx : xs.reverse with
  | nil =>
      have hxnil : xs = [] := by simpa using congrArg List.reverse hx
      simp [hxnil]
  | cons a t =>
      have ha : xs.getLast? = some a := by
        rw [← List.head?_reverse, hx]
        rfl
      have ha2 : (a == '/') = false := by
        have : a ≠ '/' := fun hEq => h (hEq ▸ ha)
        simpa using this
      rw [List.dropWhile_cons, ha2]
      simp only [Bool.false_eq_true, if_false]
      rw [← hx, List.reverse_reverse]

theorem dirnameChars_eq (xs ys : List Char) (hx1 : xs ≠ [])
    (hx2 : xs.getLast? ≠ some '/') (hy : '/' ∉ ys) :
    dirnameChars (xs ++ '/' :: ys) = xs := by
  simp only [dirnameChars]
  rw [uptoLastSlash_append xs ys hy]
  obtain ⟨a, ha⟩ : ∃ a, xs.getLast? = some a := by
    cases hgl : xs.getLast? with
    | none => exact absurd (List.getLast?_eq_none_iff.mp hgl) hx1
    | some a => exact ⟨a, rfl⟩
  have hane : a ≠ '/' := fun hEq => hx2 (hEq ▸ ha)
  have hcond : ¬(xs ++ ['/'] = [] ∨ (xs ++ ['/']).all (fun c => c == '/') = true) := by
    rintro (hnil | hall)
    · simp at hnil
    · have hmem : a ∈ xs ++ ['/'] :=
        List.mem_append_left _ (List.mem_of_mem_getLast? ha)
      have := List.all_eq_true.mp hall a hmem
      simp at this
      exact hane this
  rw [if_neg hcond]
  exact stripTrailingSlashes_append xs hx2

theorem dirname_append (D s : String) (hD1 : D.data ≠ [])
    (hD2 : D.data.getLast? ≠ some '/') (hs : '/' ∉ s.data) :
    dirname (D ++ "/" ++ s) = D := by
  have hdata : (D ++ "/" ++ s).data = D.data ++ '/' :: s.data := by
    rw [String.data_append, String.data_append,
      show ("/" : String).data = ['/'] from rfl]
    simp
  unfold dirname
  rw [hdata, dirnameChars_eq D.data s.data hD1 hD2 hs]

/-- C1: for every installation root `R` (a nonempty path without a trailing
slash) whose environment has a `PATH` entry, `_configure_pipewire_paths R`
sets the nine environment variables of the table to exactly the listed
values: `LD_LIBRARY_PATH = R/lib64`, `PIPEWIRE_CONFIG_PREFIX =
R/share/pipewire`, `PIPEWIRE_MODULE_DIR = R/lib64/pipewire-0.3`,
`SPA_PLUGIN_DIR = R/lib64/spa-0.2`, `PIPEWIRE_RUNTIME_DIR = /tmp`,
`PATH = old PATH ++ ":" ++ R/bin`, `WIREPLUMBER_CONFIG_DIR =
R/share/wireplumber`, `WIREPLUMBER_DATA_DIR = R/share/wireplumber`
(identical to the config dir), `WIREPLUMBER_MODULE_DIR =
R/lib64/wireplumber-0.5`. -/
theorem claim_C1_configure_sets_nine_vars (R : String) (env : Env) (p : String)
    (hR1 : R.data ≠ []) (hR2 : R.data.getLast? ≠ some '/')
    (hp : getVar env "PATH" = some p) :
    ∃ env2, configurePipewirePaths R env = Except.ok env2 ∧
      getVar env2 "LD_LIBRARY_PATH" = some (R ++ "/lib64") ∧
      getVar env2 "PIPEWIRE_CONFIG_PREFIX" = some (R ++ "/share/pipewire") ∧
      getVar env2 "PIPEWIRE_MODULE_DIR" = some (R ++ "/lib64/pipewire-0.3") ∧
      getVar env2 "SPA_PLUGIN_DIR" = some (R ++ "/lib64/spa-0.2") ∧
      getVar env2 "PIPEWIRE_RUNTIME_DIR" = some "/tmp" ∧
      getVar env2 "PATH" = some (p ++ ":" ++ (R ++ "/bin")) ∧
      getVar env2 "WIREPLUMBER_CONFIG_DIR" = some (R ++ "/share/wireplumber") ∧
      getVar env2 "WIREPLUMBER_DATA_DIR" = some (R ++ "/share/wireplumber") ∧
      getVar env2 "WIREPLUMBER_DATA_DIR" = getVar env2 "WIREPLUMBER_CONFIG_DIR" ∧
      getVar env2 "WIREPLUMBER_MODULE_DIR" = some (R ++ "/lib64/wireplumber-0.5") := by
  obtain ⟨j1, j2, j3, j4, j5, j6, j7, j8⟩ := configure_paths_concat R hR1 hR2
  have h := configure_ok_eq R env p hp
  refine ⟨_, h, ?_, ?_, ?_, ?_, ?_, ?_, ?_, ?_, ?_, ?_⟩ <;>
    simp [getVar_configure_ok R env _ h, hp] <;>
    simp only [j1, j2, j3, j4, j5, j6, j7, j8]

/-- Witness for C1 at a concrete root and environment. -/
theorem claim_C1_witness :
    ("/r" : String).data ≠ [] ∧ ("/r" : String).data.getLast? ≠ some '/' ∧
    getVar [("PATH", "/usr/bin")] "PATH" = some "/usr/bin" ∧
    (∃ env2, configurePipewirePaths "/r" [("PATH", "/usr/bin")] = Except.ok env2 ∧
      getVar env2 "LD_LIBRARY_PATH" = some ("/r" ++ "/lib64") ∧
      getVar env2 "PIPEWIRE_CONFIG_PREFIX" = some ("/r" ++ "/share/pipewire") ∧
      getVar env2 "PIPEWIRE_MODULE_DIR" = some ("/r" ++ "/lib64/pipewire-0.3") ∧
      getVar env2 "SPA_PLUGIN_DIR" = some ("/r" ++ "/lib64/spa-0.2") ∧
      getVar env2 "PIPEWIRE_RUNTIME_DIR" = some "/tmp" ∧
      getVar env2 "PATH" = some ("/usr/bin" ++ ":" ++ ("/r" ++ "/bin")) ∧
      getVar env2 "WIREPLUMBER_CONFIG_DIR" = some ("/r" ++ "/share/wireplumber") ∧
      getVar env2 "WIREPLUMBER_DATA_DIR" = some ("/r" ++ "/share/wireplumber") ∧
      getVar env2 "WIREPLUMBER_DATA_DIR" = getVar env2 "WIREPLUMBER_CONFIG_DIR" ∧
      getVar env2 "WIREPLUMBER_MODULE_DIR" = some ("/r" ++ "/lib64/wireplumber-0.5")) :=
  ⟨by decide, by decide, by decide,
    claim_C1_configure_sets_nine_vars "/r" [("PATH", "/usr/bin")] "/usr/bin"
      (by decide) (by decide) (by decide)⟩

/-- C6: `_get_pipewire_dir` takes no input and returns the join of the parent
of the directory containing the launcher script with `third_party`,
`pipewire`, `linux-amd64`: for a launcher located at `D/<script>` (with `D` a
nonempty, slash-terminated-free path whose parent is likewise tidy), the
result is `dirname(D)/third_party/pipewire/linux-amd64`. -/
theorem claim_C6_get_pipewire_dir (D s : String)
    (hD1 : D.data ≠ []) (hD2 : D.data.getLast? ≠ some '/')
    (hs : '/' ∉ s.data)
    (hP1 : (dirname D).data ≠ []) (hP2 : (dirname D).data.getLast? ≠ some '/') :
    getPipewireDir (D ++ "/" ++ s) =
      dirname D ++ "/third_party/pipewire/linux-amd64" := by
  simp only [getPipewireDir]
  rw [dirname_append D s hD1 hD2 hs]
  have h1 : pathJoin (dirname D) "third_party" =
      dirname D ++ ("/" ++ "third_party") :=
    pathJoin_eq_append _ _ hP1 hP2 (by decide)
  have e1ne : (dirname D ++ ("/" ++ "third_party")).data ≠ [] :=
    append_data_ne_nil _ _ (by decide)
  have e1last : (dirname D ++ ("/" ++ "third_party")).data.getLast? = some 'y' := by
    rw [append_data_getLast? _ _ (by decide)]
    decide
  have h2 : pathJoin (dirname D ++ ("/" ++ "third_party")) "pipewire" =
      dirname D ++ ("/" ++ "third_party") ++ ("/" ++ "pipewire") :=
    pathJoin_eq_append _ _ e1ne (by rw [e1last]; decide) (by decide)
  have e2ne : (dirname D ++ ("/" ++ "third_party") ++ ("/" ++ "pipewire")).data ≠ [] :=
    append_data_ne_nil _ _ (by decide)
  have e2last : (dirname D ++ ("/" ++ "third_party") ++
      ("/" ++ "pipewire")).data.getLast? = some 'e' := by
    rw [append_data_getLast? _ _ (by decide)]
    decide
  have h3 : pathJoin (dirname D ++ ("/" ++ "third_party") ++ ("/" ++ "pipewire"))
      "linux-amd64" =
      dirname D ++ ("/" ++ "third_party") ++ ("/" ++ "pipewire") ++
        ("/" ++ "linux-amd64") :=
    pathJoin_eq_append _ _ e2ne (by rw [e2last]; decide) (by decide)
  rw [h1, h2, h3]
  simp only [String.append_assoc]
  exact congrArg (String.append (dirname D)) (by decide)

/-- Witness for C6 at a concrete script location. -/
theorem claim_C6_witness :
    ("/ws/src/tools_webrtc" : String).data ≠ [] ∧
    ("/ws/src/tools_webrtc" : String).data.getLast? ≠ some '/' ∧
    '/' ∉ ("configure_pipewire.py" : String).data ∧
    (dirname "/ws/src/tools_webrtc").data ≠ [] ∧
    (dirname "/ws/src/tools_webrtc").data.getLast? ≠ some '/' ∧
    getPipewireDir ("/ws/src/tools_webrtc" ++ "/" ++ "configure_pipewire.py") =
      dirname "/ws/src/tools_webrtc" ++ "/third_party/pipewire/linux-amd64" :=
  ⟨by decide, by decide, by decide, by decide, by decide,
    claim_C6_get_pipewire_dir "/ws/src/tools_webrtc" "configure_pipewire.py"
      (by decide) (by decide) (by decide) (by decide) (by decide)⟩

/-- C8: `_configure_pipewire_paths` modifies only the nine listed environment
keys: any other key keeps its previous value, and no key outside the nine is
added. -/
theorem claim_C8_configure_frame (R : String) (env env2 : Env)
    (h : configurePipewirePaths R env = Except.ok env2) (k : String)
    (hk : k ∉ ["LD_LIBRARY_PATH", "PIPEWIRE_CONFIG_PREFIX",
      "PIPEWIRE_MODULE_DIR", "SPA_PLUGIN_DIR", "PIPEWIRE_RUNTIME_DIR", "PATH",
      "WIREPLUMBER_CONFIG_DIR", "WIREPLUMBER_DATA_DIR",
      "WIREPLUMBER_MODULE_DIR"]) :
    getVar env2 k = getVar env k ∧ (k ∈ envKeys env2 → k ∈ envKeys env) := by
  simp only [List.mem_cons, List.not_mem_nil, or_false] at hk
  push_neg at hk
  obtain ⟨n1, n2, n3, n4, n5, n6, n7, n8, n9⟩ := hk
  constructor
  · rw [getVar_configure_ok R env env2 h k,
      if_neg (fun hh => n9 hh.symm), if_neg (fun hh => n8 hh.symm),
      if_neg (fun hh => n7 hh.symm), if_neg (fun hh => n6 hh.symm),
      if_neg (fun hh => n5 hh.symm), if_neg (fun hh => n4 hh.symm),
      if_neg (fun hh => n3 hh.symm), if_neg (fun hh => n2 hh.symm),
      if_neg (fun hh => n1 hh.symm)]
  · intro hmem
    rcases (mem_envKeys_configure_ok R env env2 h k).mp hmem with hin | hin
    · exact hin
    · simp only [List.mem_cons, List.not_mem_nil, or_false] at hin
      rcases hin with h' | h' | h' | h' | h' | h' | h' | h' | h' <;>
        simp_all

/-- Witness for C8: a `HOME` entry survives configuration untouched. -/
theorem claim_C8_witness :
    configurePipewirePaths "/r" [("PATH", "/p"), ("HOME", "/h")] = Except.ok
      [("PATH", "/p:/r/bin"), ("HOME", "/h"),
       ("LD_LIBRARY_PATH", "/r/lib64"),
       ("PIPEWIRE_CONFIG_PREFIX", "/r/share/pipewire"),
       ("PIPEWIRE_MODULE_DIR", "/r/lib64/pipewire-0.3"),
       ("SPA_PLUGIN_DIR", "/r/lib64/spa-0.2"),
       ("PIPEWIRE_RUNTIME_DIR", "/tmp"),
       ("WIREPLUMBER_CONFIG_DIR", "/r/share/wireplumber"),
       ("WIREPLUMBER_DATA_DIR", "/r/share/wireplumber"),
       ("WIREPLUMBER_MODULE_DIR", "/r/lib64/wireplumber-0.5")] ∧
    ("HOME" : String) ∉ (["LD_LIBRARY_PATH", "PIPEWIRE_CONFIG_PREFIX",
      "PIPEWIRE_MODULE_DIR", "SPA_PLUGIN_DIR", "PIPEWIRE_RUNTIME_DIR", "PATH",
      "WIREPLUMBER_CONFIG_DIR", "WIREPLUMBER_DATA_DIR",
      "WIREPLUMBER_MODULE_DIR"] : List String) ∧
    (getVar [("PATH", "/p:/r/bin"), ("HOME", "/h"),
       ("LD_LIBRARY_PATH", "/r/lib64"),
       ("PIPEWIRE_CONFIG_PREFIX", "/r/share/pipewire"),
       ("PIPEWIRE_MODULE_DIR", "/r/lib64/pipewire-0.3"),
       ("SPA_PLUGIN_DIR", "/r/lib64/spa-0.2"),
       ("PIPEWIRE_RUNTIME_DIR", "/tmp"),
       ("WIREPLUMBER_CONFIG_DIR", "/r/share/wireplumber"),
       ("WIREPLUMBER_DATA_DIR", "/r/share/wireplumber"),
       ("WIREPLUMBER_MODULE_DIR", "/r/lib64/wireplumber-0.5")] "HOME" =
      getVar [("PATH", "/p"), ("HOME", "/h")] "HOME" ∧
     ("HOME" ∈ envKeys [("PATH", "/p:/r/bin"), ("HOME", "/h"),
       ("LD_LIBRARY_PATH", "/r/lib64"),
       ("PIPEWIRE_CONFIG_PREFIX", "/r/share/pipewire"),
       ("PIPEWIRE_MODULE_DIR", "/r/lib64/pipewire-0.3"),
       ("SPA_PLUGIN_DIR", "/r/lib64/spa-0.2"),
       ("PIPEWIRE_RUNTIME_DIR", "/tmp"),
       ("WIREPLUMBER_CONFIG_DIR", "/r/share/wireplumber"),
       ("WIREPLUMBER_DATA_DIR", "/r/share/wireplumber"),
       ("WIREPLUMBER_MODULE_DIR", "/r/lib64/wireplumber-0.5")] →
      "HOME" ∈ envKeys [("PATH", "/p"), ("HOME", "/h")])) :=
  ⟨by rfl, by decide,
    claim_C8_configure_frame "/r" [("PATH", "/p"), ("HOME", "/h")] _
      (by rfl) "HOME" (by decide)⟩

/-- C5: calling `_configure_pipewire_paths` twice with the same root gives
the same final value for every key except `PATH`, while `PATH` gets
`R/bin` appended (with a `:` separator) once per call, so the second call
accumulates a duplicate segment instead of replacing it. -/
theorem claim_C5_configure_twice (R : String) (env : Env) (p : String)
    (hR1 : R.data ≠ []) (hR2 : R.data.getLast? ≠ some '/')
    (hp : getVar env "PATH" = some p) :
    ∃ env1 env2,
      configurePipewirePaths R env = Except.ok env1 ∧
      configurePipewirePaths R env1 = Except.ok env2 ∧
      getVar env1 "PATH" = some (p ++ ":" ++ (R ++ "/bin")) ∧
      getVar env2 "PATH" =
        some (p ++ ":" ++ (R ++ "/bin") ++ ":" ++ (R ++ "/bin")) ∧
      ∀ k, k ≠ "PATH" → getVar env2 k = getVar env1 k := by
  obtain ⟨j1, j2, j3, j4, j5, j6, j7, j8⟩ := configure_paths_concat R hR1 hR2
  obtain ⟨env1, h1⟩ : ∃ e, configurePipewirePaths R env = Except.ok e :=
    ⟨_, configure_ok_eq R env p hp⟩
  have hp1 : getVar env1 "PATH" = some (p ++ ":" ++ (R ++ "/bin")) := by
    rw [getVar_configure_ok R env env1 h1 "PATH"]
    simp [hp, j2]
  obtain ⟨env2, h2⟩ : ∃ e, configurePipewirePaths R env1 = Except.ok e :=
    ⟨_, configure_ok_eq R env1 _ hp1⟩
  have hp2 : getVar env2 "PATH" =
      some (p ++ ":" ++ (R ++ "/bin") ++ ":" ++ (R ++ "/bin")) := by
    rw [getVar_configure_ok R env1 env2 h2 "PATH"]
    simp [hp1, j2]
  refine ⟨env1, env2, h1, h2, hp1, hp2, ?_⟩
  intro k hk
  have hG := getVar_configure_ok R env env1 h1
  rw [getVar_configure_ok R env1 env2 h2 k]
  by_cases c1 : "WIREPLUMBER_MODULE_DIR" = k
  · cases c1
    simp [hG]
  rw [if_neg c1]
  by_cases c2 : "WIREPLUMBER_DATA_DIR" = k
  · cases c2
    simp [hG]
  rw [if_neg c2]
  by_cases c3 : "WIREPLUMBER_CONFIG_DIR" = k
  · cases c3
    simp [hG]
  rw [if_neg c3, if_neg (fun hh => hk hh.symm)]
  by_cases c5 : "PIPEWIRE_RUNTIME_DIR" = k
  · cases c5
    simp [hG]
  rw [if_neg c5]
  by_cases c6 : "SPA_PLUGIN_DIR" = k
  · cases c6
    simp [hG]
  rw [if_neg c6]
  by_cases c7 : "PIPEWIRE_MODULE_DIR" = k
  · cases c7
    simp [hG]
  rw [if_neg c7]
  by_cases c8 : "PIPEWIRE_CONFIG_PREFIX" = k
  · cases c8
    simp [hG]
  rw [if_neg c8]
  by_cases c9 : "LD_LIBRARY_PATH" = k
  · cases c9
    simp [hG]
  rw [if_neg c9]

/-- Witness for C5 at a concrete root and environment. -/
theorem claim_C5_witness :
    ("/r" : String).data ≠ [] ∧ ("/r" : String).data.getLast? ≠ some '/' ∧
    getVar [("PATH", "/p")] "PATH" = some "/p" ∧
    (∃ env1 env2,
      configurePipewirePaths "/r" [("PATH", "/p")] = Except.ok env1 ∧
      configurePipewirePaths "/r" env1 = Except.ok env2 ∧
      getVar env1 "PATH" = some ("/p" ++ ":" ++ ("/r" ++ "/bin")) ∧
      getVar env2 "PATH" =
        some ("/p" ++ ":" ++ ("/r" ++ "/bin") ++ ":" ++ ("/r" ++ "/bin")) ∧
      ∀ k, k ≠ "PATH" → getVar env2 k = getVar env1 k) :=
  ⟨by decide, by decide, by decide,
    claim_C5_configure_twice "/r" [("PATH", "/p")] "/p"
      (by decide) (by decide) (by decide)⟩

/-- C9: if the inherited environment has no `PATH` key, configuration fails
(the `KeyError` from reading `env_vars['PATH']`) after having already set
`LD_LIBRARY_PATH`, `PIPEWIRE_CONFIG_PREFIX`, `PIPEWIRE_MODULE_DIR`,
`SPA_PLUGIN_DIR` and `PIPEWIRE_RUNTIME_DIR` (all other keys untouched at the
failure point); it succeeds whenever `PATH` is present. -/
theorem claim_C9_configure_keyerror (R : String) (env : Env) :
    (getVar env "PATH" = none →
      ∃ e5, configurePipewirePaths R env = Except.error e5 ∧
        getVar e5 "LD_LIBRARY_PATH" = some (pathJoin R "lib64") ∧
        getVar e5 "PIPEWIRE_CONFIG_PREFIX" =
          some (pathJoin (pathJoin R "share") "pipewire") ∧
        getVar e5 "PIPEWIRE_MODULE_DIR" =
          some (pathJoin (pathJoin R "lib64") "pipewire-0.3") ∧
        getVar e5 "SPA_PLUGIN_DIR" =
          some (pathJoin (pathJoin R "lib64") "spa-0.2") ∧
        getVar e5 "PIPEWIRE_RUNTIME_DIR" = some "/tmp" ∧
        ∀ k, k ∉ ["LD_LIBRARY_PATH", "PIPEWIRE_CONFIG_PREFIX",
          "PIPEWIRE_MODULE_DIR", "SPA_PLUGIN_DIR", "PIPEWIRE_RUNTIME_DIR"] →
          getVar e5 k = getVar env k) ∧
    (∀ p, getVar env "PATH" = some p →
      ∃ e9, configurePipewirePaths R env = Except.ok e9) := by
  constructor
  · intro hp
    refine ⟨_, configure_error_eq R env hp, ?_, ?_, ?_, ?_, ?_, ?_⟩
    · simp [getVar_setVar]
    · simp [getVar_setVar]
    · simp [getVar_setVar]
    · simp [getVar_setVar]
    · simp [getVar_setVar]
    intro k hk
    simp only [List.mem_cons, List.not_mem_nil, or_false] at hk
    push_neg at hk
    obtain ⟨n1, n2, n3, n4, n5⟩ := hk
    rw [getVar_setVar, if_neg (fun hh => n5 hh.symm),
      getVar_setVar, if_neg (fun hh => n4 hh.symm),
      getVar_setVar, if_neg (fun hh => n3 hh.symm),
      getVar_setVar, if_neg (fun hh => n2 hh.symm),
      getVar_setVar, if_neg (fun hh => n1 hh.symm)]
  · intro p hp
    exact ⟨_, configure_ok_eq R env p hp⟩

/-- Witness for C9: failure without `PATH`, success with it. -/
theorem claim_C9_witness :
    (∃ e5, configurePipewirePaths "/r" [("HOME", "/h")] = Except.error e5 ∧
      getVar e5 "LD_LIBRARY_PATH" = some (pathJoin "/r" "lib64") ∧
      getVar e5 "PIPEWIRE_CONFIG_PREFIX" =
        some (pathJoin (pathJoin "/r" "share") "pipewire") ∧
      getVar e5 "PIPEWIRE_MODULE_DIR" =
        some (pathJoin (pathJoin "/r" "lib64") "pipewire-0.3") ∧
      getVar e5 "SPA_PLUGIN_DIR" =
        some (pathJoin (pathJoin "/r" "lib64") "spa-0.2") ∧
      getVar e5 "PIPEWIRE_RUNTIME_DIR" = some "/tmp" ∧
      ∀ k, k ∉ ["LD_LIBRARY_PATH", "PIPEWIRE_CONFIG_PREFIX",
        "PIPEWIRE_MODULE_DIR", "SPA_PLUGIN_DIR", "PIPEWIRE_RUNTIME_DIR"] →
        getVar e5 k = getVar [("HOME", "/h")] k) ∧
    (∃ e9, configurePipewirePaths "/r" [("PATH", "/p")] = Except.ok e9) :=
  ⟨(claim_C9_configure_keyerror "/r" [("HOME", "/h")]).1 (by decide),
   (claim_C9_configure_keyerror "/r" [("PATH", "/p")]).2 "/p" (by decide)⟩

theorem mainRun_ok_eq (script : String) (isdir : String → Bool) (env env1 : Env)
    (argv : List String) (n : Nat)
    (hdir : isdir (getPipewireDir script) = true)
    (hcfg : configurePipewirePaths (getPipewireDir script) env = Except.ok env1) :
    mainRun script isdir env argv n = Except.ok
      { exitCode := n
        events := [Event.spawned ["pipewire"] none env1,
                   Event.spawned ["wireplumber"] none env1,
                   Event.ranForeground argv env1,
                   Event.terminated "wireplumber",
                   Event.terminated "pipewire"]
        env := env1 } := by
  simp only [mainRun]
  rw [hdir, hcfg]
  rfl

theorem mainRun_missing_eq (script : String) (isdir : String → Bool)
    (env : Env) (argv : List String) (n : Nat)
    (hdir : isdir (getPipewireDir script) = false) :
    mainRun script isdir env argv n = Except.ok
      { exitCode := 1
        events := [Event.printed (missingDirMsg (getPipewireDir script))]
        env := env } := by
  simp only [mainRun]
  rw [hdir]
  rfl

/-- C2: when the installation root exists (and `PATH` is set, so configuration
succeeds), `main` returns exactly the foreground command's exit status `n`
(0 ≤ n ≤ 255), unchanged, including non-zero values. -/
theorem claim_C2_exit_propagation (script : String) (isdir : String → Bool)
    (env : Env) (argv : List String) (p : String) (n : Nat)
    (hdir : isdir (getPipewireDir script) = true)
    (hp : getVar env "PATH" = some p) (hn : n ≤ 255) :
    ∃ r, mainRun script isdir env argv n = Except.ok r ∧ r.exitCode = n := by
  obtain ⟨env1, hcfg⟩ :
      ∃ e, configurePipewirePaths (getPipewireDir script) env = Except.ok e :=
    ⟨_, configure_ok_eq _ env p hp⟩
  exact ⟨_, mainRun_ok_eq script isdir env env1 argv n hdir hcfg, rfl⟩

/-- Witness for C2 with foreground exit status 7. -/
theorem claim_C2_witness :
    (fun _ => true : String → Bool)
      (getPipewireDir "/ws/src/tools_webrtc/configure_pipewire.py") = true ∧
    getVar [("PATH", "/p")] "PATH" = some "/p" ∧ 7 ≤ 255 ∧
    (∃ r, mainRun "/ws/src/tools_webrtc/configure_pipewire.py"
        (fun _ => true) [("PATH", "/p")] ["foo", "--bar"] 7 = Except.ok r ∧
      r.exitCode = 7) :=
  ⟨rfl, by decide, by decide,
    claim_C2_exit_propagation "/ws/src/tools_webrtc/configure_pipewire.py"
      (fun _ => true) [("PATH", "/p")] ["foo", "--bar"] "/p" 7
      rfl (by decide) (by decide)⟩

/-- C3: if the computed installation root is not a directory, `main` prints
the one-line message naming that path, returns 1, and spawns no child
process: neither helper `Popen` spawns nor the foreground `call` occur. -/
theorem claim_C3_missing_root (script : String) (isdir : String → Bool)
    (env : Env) (argv : List String) (n : Nat)
    (hdir : isdir (getPipewireDir script) = false) :
    ∃ r, mainRun script isdir env argv n = Except.ok r ∧
      r.exitCode = 1 ∧
      r.events = [Event.printed (missingDirMsg (getPipewireDir script))] ∧
      missingDirMsg (getPipewireDir script) =
        "configure-pipewire: Couldn" ++ squote ++ "t find directory " ++
          getPipewireDir script ∧
      spawnRequests r.events = [] ∧
      foregroundRuns r.events = [] :=
  ⟨_, mainRun_missing_eq script isdir env argv n hdir, rfl, rfl, rfl, rfl, rfl⟩

/-- Witness for C3 with an absent root. -/
theorem claim_C3_witness :
    (fun _ => false : String → Bool)
      (getPipewireDir "/ws/src/tools_webrtc/configure_pipewire.py") = false ∧
    (∃ r, mainRun "/ws/src/tools_webrtc/configure_pipewire.py"
        (fun _ => false) [("PATH", "/p")] ["foo"] 0 = Except.ok r ∧
      r.exitCode = 1 ∧
      r.events = [Event.printed (missingDirMsg
        (getPipewireDir "/ws/src/tools_webrtc/configure_pipewire.py"))] ∧
      missingDirMsg (getPipewireDir "/ws/src/tools_webrtc/configure_pipewire.py") =
        "configure-pipewire: Couldn" ++ squote ++ "t find directory " ++
          getPipewireDir "/ws/src/tools_webrtc/configure_pipewire.py" ∧
      spawnRequests r.events = [] ∧
      foregroundRuns r.events = []) :=
  ⟨rfl, claim_C3_missing_root "/ws/src/tools_webrtc/configure_pipewire.py"
    (fun _ => false) [("PATH", "/p")] ["foo"] 0 rfl⟩

/-- C10: on the missing-root failure path, `main` leaves the process
environment completely unchanged while returning exit status 1. -/
theorem claim_C10_missing_root_env_unchanged (script : String)
    (isdir : String → Bool) (env : Env) (argv : List String) (n : Nat)
    (hdir : isdir (getPipewireDir script) = false) :
    ∃ r, mainRun script isdir env argv n = Except.ok r ∧
      r.env = env ∧ r.exitCode = 1 :=
  ⟨_, mainRun_missing_eq script isdir env argv n hdir, rfl, rfl⟩

/-- Witness for C10 with an absent root. -/
theorem claim_C10_witness :
    (fun _ => false : String → Bool)
      (getPipewireDir "/ws/src/tools_webrtc/configure_pipewire.py") = false ∧
    (∃ r, mainRun "/ws/src/tools_webrtc/configure_pipewire.py"
        (fun _ => false) [("PATH", "/p"), ("HOME", "/h")] ["foo"] 0 =
        Except.ok r ∧
      r.env = [("PATH", "/p"), ("HOME", "/h")] ∧ r.exitCode = 1) :=
  ⟨rfl, claim_C10_missing_root_env_unchanged
    "/ws/src/tools_webrtc/configure_pipewire.py" (fun _ => false)
    [("PATH", "/p"), ("HOME", "/h")] ["foo"] 0 rfl⟩

/-- C4: in every successful run, each helper receives exactly one graceful
terminate request (and no kill), in reverse start order — `wireplumber`
first, then `pipewire` — and both only after the foreground command ran,
for every foreground exit code `n`. -/
theorem claim_C4_terminate_order (script : String) (isdir : String → Bool)
    (env : Env) (argv : List String) (p : String) (n : Nat)
    (hdir : isdir (getPipewireDir script) = true)
    (hp : getVar env "PATH" = some p) :
    ∃ r, mainRun script isdir env argv n = Except.ok r ∧
      terminateRequests r.events = ["wireplumber", "pipewire"] ∧
      killRequests r.events = [] ∧
      ∃ l1 l2 l3 e1, r.events =
        l1 ++ Event.ranForeground argv e1 ::
          (l2 ++ Event.terminated "wireplumber" ::
            (l3 ++ [Event.terminated "pipewire"])) := by
  obtain ⟨env1, hcfg⟩ :
      ∃ e, configurePipewirePaths (getPipewireDir script) env = Except.ok e :=
    ⟨_, configure_ok_eq _ env p hp⟩
  refine ⟨_, mainRun_ok_eq script isdir env env1 argv n hdir hcfg, rfl, rfl, ?_⟩
  exact ⟨[Event.spawned ["pipewire"] none env1,
          Event.spawned ["wireplumber"] none env1], [], [], env1, rfl⟩

/-- Witness for C4 with a failing foreground command (exit 3). -/
theorem claim_C4_witness :
    (fun _ => true : String → Bool)
      (getPipewireDir "/ws/src/tools_webrtc/configure_pipewire.py") = true ∧
    getVar [("PATH", "/p")] "PATH" = some "/p" ∧
    (∃ r, mainRun "/ws/src/tools_webrtc/configure_pipewire.py"
        (fun _ => true) [("PATH", "/p")] ["false"] 3 = Except.ok r ∧
      terminateRequests r.events = ["wireplumber", "pipewire"] ∧
      killRequests r.events = [] ∧
      ∃ l1 l2 l3 e1, r.events =
        l1 ++ Event.ranForeground ["false"] e1 ::
          (l2 ++ Event.terminated "wireplumber" ::
            (l3 ++ [Event.terminated "pipewire"]))) :=
  ⟨rfl, by decide,
    claim_C4_terminate_order "/ws/src/tools_webrtc/configure_pipewire.py"
      (fun _ => true) [("PATH", "/p")] ["false"] "/p" 3 rfl (by decide)⟩

/-- C7: when the root exists, the launcher spawns exactly two helpers, in
order `pipewire` then `wireplumber`, each with no arguments, each inheriting
the configured environment, each with stdout unredirected, and both spawned
before the foreground command runs. -/
theorem claim_C7_two_spawns (script : String) (isdir : String → Bool)
    (env : Env) (argv : List String) (p : String) (n : Nat)
    (hdir : isdir (getPipewireDir script) = true)
    (hp : getVar env "PATH" = some p) :
    ∃ r env1, mainRun script isdir env argv n = Except.ok r ∧
      configurePipewirePaths (getPipewireDir script) env = Except.ok env1 ∧
      spawnRequests r.events =
        [(["pipewire"], none, env1), (["wireplumber"], none, env1)] ∧
      ∃ rest, r.events = Event.spawned ["pipewire"] none env1 ::
        Event.spawned ["wireplumber"] none env1 ::
        Event.ranForeground argv env1 :: rest := by
  obtain ⟨env1, hcfg⟩ :
      ∃ e, configurePipewirePaths (getPipewireDir script) env = Except.ok e :=
    ⟨_, configure_ok_eq _ env p hp⟩
  exact ⟨_, env1, mainRun_ok_eq script isdir env env1 argv n hdir hcfg, hcfg,
    rfl, ⟨[Event.terminated "wireplumber", Event.terminated "pipewire"], rfl⟩⟩

/-- Witness for C7 at concrete inputs. -/
theorem claim_C7_witness :
    (fun _ => true : String → Bool)
      (getPipewireDir "/ws/src/tools_webrtc/configure_pipewire.py") = true ∧
    getVar [("PATH", "/p")] "PATH" = some "/p" ∧
    (∃ r env1, mainRun "/ws/src/tools_webrtc/configure_pipewire.py"
        (fun _ => true) [("PATH", "/p")] ["true"] 0 = Except.ok r ∧
      configurePipewirePaths
        (getPipewireDir "/ws/src/tools_webrtc/configure_pipewire.py")
        [("PATH", "/p")] = Except.ok env1 ∧
      spawnRequests r.events =
        [(["pipewire"], none, env1), (["wireplumber"], none, env1)] ∧
      ∃ rest, r.events = Event.spawned ["pipewire"] none env1 ::
        Event.spawned ["wireplumber"] none env1 ::
        Event.ranForeground ["true"] env1 :: rest) :=
  ⟨rfl, by decide,
    claim_C7_two_spawns "/ws/src/tools_webrtc/configure_pipewire.py"
      (fun _ => true) [("PATH", "/p")] ["true"] "/p" 0 rfl (by decide)⟩
